import Mathlib

/-!
Verification development for the aiodinweb routing and dispatch core.

Shallow embedding of `aiodinweb` (Python): URL-path data model
(`data_structures.py`), operations (`operation.py`), middleware registry
(`middleware/__init__.py`), container tree and dispatcher (`containers.py`),
content-type resolution (`content_type_resolvers.py`) and CORS (`cors.py`).
Python exceptions are modelled with an explicit error type, machine-level
concerns (async scheduling, logging side effects, wire encoding) are out of
scope and noted at each definition.
-/

namespace Aiodinweb

/-- Model of the Python exceptions raised by the embedded code: `TypeError`
and `ValueError`, carrying the message string. -/
inductive PyErr
  | typeError (msg : String)
  | valueError (msg : String)
deriving DecidableEq, Repr

/-- Decidable equality for `Except` values (not provided by core). -/
instance {e a : Type} [DecidableEq e] [DecidableEq a] : DecidableEq (Except e a) := fun x y =>
  match x, y with
  | .ok v, .ok w =>
    if h : v = w then .isTrue (by rw [h]) else .isFalse fun hc => h (Except.ok.inj hc)
  | .error v, .error w =>
    if h : v = w then .isTrue (by rw [h]) else .isFalse fun hc => h (Except.error.inj hc)
  | .ok _, .error _ => .isFalse fun hc => Except.noConfusion hc
  | .error _, .ok _ => .isFalse fun hc => Except.noConfusion hc

/-- `constants.Method` (a `str` enum): HTTP request methods. -/
inductive Method
  | Get | Put | Post | Delete | Options | Head | Patch
deriving DecidableEq, Repr

/-- The `.value` of each `constants.Method` member. -/
def Method.value : Method → String
  | .Get => "GET"
  | .Put => "PUT"
  | .Post => "POST"
  | .Delete => "DELETE"
  | .Options => "OPTIONS"
  | .Head => "HEAD"
  | .Patch => "PATCH"

/-- `constants.In`: the location of a parameter. -/
inductive In
  | Query | Header | Path | Cookie
deriving DecidableEq, Repr

/-- `constants.DataType`: primitive OpenAPI data types (member names only;
the per-member type/format/native-type data is not needed by any claim
except the member name used by the default parameter formatter). -/
inductive DataType
  | Integer | Long | Float | Double | String | Byte | Binary | Boolean
  | Date | Time | DateTime | Email | IPv4 | IPv6 | Uri | Regex | Password
deriving DecidableEq, Repr

/-- `.name` of a `DataType` enum member. -/
def dataTypeName : DataType → String
  | .Integer => "Integer"
  | .Long => "Long"
  | .Float => "Float"
  | .Double => "Double"
  | .String => "String"
  | .Byte => "Byte"
  | .Binary => "Binary"
  | .Boolean => "Boolean"
  | .Date => "Date"
  | .Time => "Time"
  | .DateTime => "DateTime"
  | .Email => "Email"
  | .IPv4 => "IPv4"
  | .IPv6 => "IPv6"
  | .Uri => "Uri"
  | .Regex => "Regex"
  | .Password => "Password"

/-- `DataType[name]` enum lookup by member name (`None` on `KeyError`). -/
def dataTypeLookup : String → Option DataType
  | "Integer" => some .Integer
  | "Long" => some .Long
  | "Float" => some .Float
  | "Double" => some .Double
  | "String" => some .String
  | "Byte" => some .Byte
  | "Binary" => some .Binary
  | "Boolean" => some .Boolean
  | "Date" => some .Date
  | "Time" => some .Time
  | "DateTime" => some .DateTime
  | "Email" => some .Email
  | "IPv4" => some .IPv4
  | "IPv6" => some .IPv6
  | "Uri" => some .Uri
  | "Regex" => some .Regex
  | "Password" => some .Password
  | _ => none

/-- `data_structures.Parameter`: describes a single operation parameter.
Python equality is keyed on `(name, in_)`; the embedding uses structural
equality, which refines it (all parameter constructions in the claims are
compared structurally). -/
structure Parameter where
  name : String
  in_ : In
  description : Option String := none
  required : Option Bool := none
  allow_empty : Option Bool := none
  data_type : Option DataType := none
deriving DecidableEq, Repr

/-- One atom of a `UrlPath`: a literal string segment or a `Parameter`. -/
inductive Atom
  | lit (s : String)
  | param (p : Parameter)
deriving DecidableEq, Repr

/-- `data_structures.UrlPath`: a tuple of atoms.  Modelled as a list. -/
abbrev UrlPath := List Atom

/-- `data_structures.EmptyPath`. -/
def EmptyPath : UrlPath := []

/-- `data_structures.RootPath`. -/
def RootPath : UrlPath := [Atom.lit ""]

/-- `UrlPath.is_absolute`: `len(self) and self[0] == ''`.  A `Parameter`
first atom compares unequal to the string `''`. -/
def UrlPath.is_absolute : UrlPath → Bool
  | [] => false
  | Atom.lit s :: _ => s = ""
  | Atom.param _ :: _ => false

/-- `UrlPath.__add__`: raises `ValueError` when the right operand is truthy
(non-empty) and absolute, otherwise tuple concatenation. -/
def UrlPath.add (a b : UrlPath) : Except PyErr UrlPath :=
  if !b.isEmpty && UrlPath.is_absolute b then
    .error (.valueError "Right argument cannot be absolute")
  else
    .ok (a ++ b)

/-- The character `{` (written via its code point to keep brace characters
out of the source text). -/
def lbrace : Char := Char.ofNat 123

/-- The character `}`. -/
def rbrace : Char := Char.ofNat 125

/-- ASCII approximation of the regex class `\w` used by `PATH_PARAM_RE`. -/
def wordChar (c : Char) : Bool := c.isAlpha || c.isDigit || c = '_'

/-- First character of a path-parameter name or type token: `[a-zA-Z_]`. -/
def nameStart (c : Char) : Bool := c.isAlpha || c = '_'

/-- Characters admitted by the third (`arg`) group of `PATH_PARAM_RE`:
`[-^$+*:\w\\\[\]|]`. -/
def argChar (c : Char) : Bool :=
  wordChar c || c = '-' || c = '^' || c = '$' || c = '+' || c = '*' ||
    c = ':' || c = '\\' || c = '[' || c = ']' || c = '|'

/-- Backtracking fallback of `PATH_PARAM_RE` after the name: when the typed
`(?::type)(?::arg)` alternatives fail, the whole `:`-suffix may still match
the single `(?::arg)` group. `rest` is the text after the first `:`. -/
def fallbackArg (nm : String) (rest : List Char) :
    Option (String × Option String × Option String) :=
  if rest ≠ [] ∧ rest.all argChar then some (nm, none, some (String.mk rest))
  else none

/-- Matching of `PATH_PARAM_RE` after the parameter name: an optional
`:type` group (type in `[a-zA-Z_]\w*`) then an optional `:arg` group, with
the regex backtracking order (type-and-arg, type alone, arg alone). -/
def matchTail (nm : String) (r : List Char) :
    Option (String × Option String × Option String) :=
  match r with
  | [] => some (nm, none, none)
  | ':' :: rest =>
    match rest with
    | [] => fallbackArg nm rest
    | c :: rest2 =>
      if nameStart c then
        let sp := rest2.span wordChar
        let t := String.mk (c :: sp.1)
        match sp.2 with
        | [] => some (nm, some t, none)
        | ':' :: arg =>
          if arg ≠ [] ∧ arg.all argChar then some (nm, some t, some (String.mk arg))
          else fallbackArg nm rest
        | _ => fallbackArg nm rest
      else fallbackArg nm rest
  | _ => none

/-- `PATH_PARAM_RE.match(atom).groups()`:
`^{([a-zA-Z_]\w*)(?::([a-zA-Z_]\w*))?(?::([-^$+*:\w\\\[\]|]+))?}$`. -/
def matchPathParam (atom : String) : Option (String × Option String × Option String) :=
  let cs := atom.toList
  if cs.length < 2 ∨ cs.head? ≠ some lbrace ∨ cs.getLast? ≠ some rbrace then none
  else
    match cs.drop 1 |>.dropLast with
    | [] => none
    | c :: rest =>
      if nameStart c then
        let sp := rest.span wordChar
        matchTail (String.mk (c :: sp.1)) sp.2
      else none

/-- One iteration of the `UrlPath.parse` loop body: literal atoms pass
through, atoms containing a brace must match `PATH_PARAM_RE` and produce a
required path `Parameter` whose data type defaults to `String`. -/
def parseAtom (atom : String) : Except PyErr Atom :=
  if (atom.toList.any fun c => c = lbrace) || (atom.toList.any fun c => c = rbrace) then
    match matchPathParam atom with
    | none => .error (.valueError ("Invalid path param: " ++ atom))
    | some (nm, ptype, _arg) =>
      match ptype with
      | none =>
        .ok (.param { name := nm, in_ := In.Path, required := some true,
                      data_type := some DataType.String })
      | some t =>
        match dataTypeLookup t with
        | some dt =>
          .ok (.param { name := nm, in_ := In.Path, required := some true,
                        data_type := some dt })
        | none => .error (.valueError ("Unknown param type `" ++ t ++ "` in: " ++ atom))
  else .ok (.lit atom)

/-- Python `str.rstrip('/')`. -/
def rstripSlashes (l : List Char) : List Char :=
  (l.reverse.dropWhile (fun c => c = '/')).reverse

/-- Python `str.split(sep)` for a one-character separator: splitting the
empty string yields `['']`. -/
def splitOnChar (sep : Char) : List Char → List (List Char)
  | [] => [[]]
  | c :: t =>
    if c = sep then [] :: splitOnChar sep t
    else
      match splitOnChar sep t with
      | [] => [[c]]
      | x :: xs => (c :: x) :: xs

/-- `UrlPath.parse`: empty string yields the empty path; otherwise strip
trailing slashes, split on `/` and convert each atom. -/
def UrlPath.parse (s : String) : Except PyErr UrlPath :=
  if s = "" then .ok []
  else ((splitOnChar '/' (rstripSlashes s.toList)).map String.mk).mapM parseAtom

/-- An element of a sequence passed to `UrlPath.from_object`: a `str`, a
`Parameter`, or a value of any other type (carrying only its repr). -/
inductive SeqItem
  | str (s : String)
  | param (p : Parameter)
  | other (r : String)
deriving DecidableEq, Repr

/-- True iff the element is neither a `str` nor a `Parameter`. -/
def SeqItem.isOther : SeqItem → Bool
  | .other _ => true
  | _ => false

/-- Conversion of an accepted sequence element into a `UrlPath` atom (the
`.other` branch is unreachable behind `from_object`'s type guard). -/
def SeqItem.toAtom : SeqItem → Atom
  | .str s => .lit s
  | .param p => .param p
  | .other r => .lit r

/-- The possible runtime types of the argument of `UrlPath.from_object`. -/
inductive FromObjectArg
  | urlPath (p : UrlPath)
  | str (s : String)
  | param (p : Parameter)
  | seq (items : List SeqItem)
  | other (r : String)
deriving DecidableEq, Repr

/-- `UrlPath.from_object`: an existing `UrlPath` is returned, a string is
parsed, a single `Parameter` must be path-located (else `ValueError`), a
tuple/list of `str`/`Parameter` atoms is wrapped (any other element type is
a `TypeError`), any other object is a `TypeError`. -/
def UrlPath.from_object : FromObjectArg → Except PyErr UrlPath
  | .urlPath p => .ok p
  | .str s => UrlPath.parse s
  | .param p =>
    if p.in_ ≠ In.Path then
      .error (.valueError "Only path parameters can be used in a UrlPath object.")
    else .ok [Atom.param p]
  | .seq items =>
    if items.any SeqItem.isOther then
      .error (.typeError "Only str and Parameter objects can be used in a UrlPath")
    else .ok (items.map SeqItem.toAtom)
  | .other r => .error (.typeError ("Unable to convert object to UrlPath: " ++ r))

/-- `UrlPath.default_parameter_formatter`: `{name}` or `{name:Type}` when a
data type is present (enum members are always truthy). -/
def default_parameter_formatter (p : Parameter) : String :=
  match p.data_type with
  | some dt => "\x7b" ++ p.name ++ ":" ++ dataTypeName dt ++ "\x7d"
  | none => "\x7b" ++ p.name ++ "\x7d"

/-- `UrlPath.format` with the default parameter formatter and default `/`
separator: the root path `('',)` formats to the separator alone, otherwise
the atoms are joined with `/`. -/
def UrlPath.format (p : UrlPath) : String :=
  if p = [Atom.lit ""] then "/"
  else
    String.intercalate "/" (p.map fun a =>
      match a with
      | .lit s => s
      | .param pm => default_parameter_formatter pm)

/-- A recorded event of one operation invocation: middleware pre/post work
and the base handler, used to observe the dispatch chain call order. -/
inductive Ev
  | before (n : String)
  | handler
  | after (n : String)
deriving DecidableEq, Repr

/-- Model of a Python exception instance routed to the 500 handler. -/
structure Exc where
  msg : String
deriving DecidableEq, Repr

/-- Response headers (aiohttp multidict modelled as an association list). -/
abbrev Headers := List (String × String)

/-- A member of `http.HTTPStatus`: value, phrase and description. -/
structure HTTPStatus where
  code : Nat
  phrase : String
  description : String
deriving DecidableEq, Repr

/-- `HTTPStatus.METHOD_NOT_ALLOWED`. -/
def methodNotAllowed : HTTPStatus :=
  ⟨405, "Method Not Allowed", "Specified method is invalid for this resource"⟩

/-- `HTTPStatus.UNPROCESSABLE_ENTITY`. -/
def unprocessableEntity : HTTPStatus := ⟨422, "Unprocessable Entity", ""⟩

/-- `HTTPStatus.INTERNAL_SERVER_ERROR`. -/
def internalServerError : HTTPStatus :=
  ⟨500, "Internal Server Error", "Server got itself in trouble"⟩

/-- `HTTPStatus.NOT_IMPLEMENTED`. -/
def notImplemented501 : HTTPStatus :=
  ⟨501, "Not Implemented", "Server does not support this operation"⟩

/-- `resources.Error`: the standardized error body (the odin field wiring
is external; `meta` is omitted as always `None` in the embedded paths). -/
structure ErrorBody where
  status : Nat
  code : Nat
  message : String
  developer_message : Option String := none
deriving DecidableEq, Repr

/-- `Error.from_status` with default `code_index=0`, `message=None`,
`developer_message=None`: code is `status*100`, message the phrase,
developer message the description. -/
def errorFromStatus (status : HTTPStatus) : ErrorBody :=
  { status := status.code, code := status.code * 100 + 0,
    message := status.phrase, developer_message := some status.description }

/-- A resource value handled by the dispatcher: a standardized error body
or an opaque domain value (serialization is external). -/
inductive Resource
  | err (e : ErrorBody)
  | value (s : String)
deriving DecidableEq, Repr

/-- Model of `web.Response`: status, optional reason/text, the un-encoded
body resource (codec `dumps` is an external collaborator), content type and
headers. -/
structure Resp where
  status : Nat
  reason : Option String := none
  text : Option String := none
  body : Option Resource := none
  content_type : Option String := none
  headers : Headers := []
deriving DecidableEq, Repr

/-- The `(resource, status, headers)` components produced by
`_dispatch_operation` and the 500-handler chain; the resource slot may be
`None`, a resource, or an already-finished `StreamResponse`. -/
inductive Body
  | empty
  | res (r : Resource)
  | stream (resp : Resp)
deriving DecidableEq, Repr

/-- `Response.from_status`: reason defaults to the status phrase, text to
the status description, headers to none. -/
def responseFromStatus (status : HTTPStatus) (reason : Option String := none)
    (description : Option String := none) (headers : Option Headers := none) : Resp :=
  { status := status.code,
    reason := some (reason.getD status.phrase),
    text := some (description.getD status.description),
    headers := headers.getD [] }

/-- `Response.create`: no body yields `204` (unless a status is given) with
the response codec content type; a body is encoded by the response codec
(kept symbolic) with default status `200`. -/
def responseCreate (response_ct : String) (body : Option Resource)
    (status : Option Nat) (headers : Option Headers) : Resp :=
  match body with
  | none => { status := status.getD 204, headers := headers.getD [],
              content_type := some response_ct }
  | some r => { status := status.getD 200, headers := headers.getD [],
                content_type := some response_ct, body := some r }

/-- Outcome of one 500-hook invocation: a (possibly falsy `None`) return
value, or an exception raised by the hook itself. -/
inductive Hook500Outcome
  | returns (r : Option (Body × Option Nat × Option Headers))
  | raises (e : Exc)

/-- The `(resource, status, headers)` triple returned by a 500 handler. -/
abbrev H500Result := Body × Option Nat × Option Headers

/-- An opaque middleware object as probed by `MiddlewareList`: a priority
(`getattr(o, 'priority', 10)` modelled by the field default) and the
optional `handle_dispatch` / `handle_500` capabilities.  The dispatch hook
is modelled by its action on the call-order trace of the handler it wraps;
the 500 hook by its outcome on the in-flight exception (the request
argument does not influence any embedded behavior). -/
structure Middleware where
  name : String := ""
  priority : Nat := 10
  handle_dispatch : Option (List Ev → List Ev) := none
  handle_500 : Option (Exc → Hook500Outcome) := none

/-- Stable insertion placing `x` before the first element of greater-or
equal priority has been passed... (see `sort_by_priority`). -/
def insertByPriority (x : Middleware) : List Middleware → List Middleware
  | [] => [x]
  | y :: ys => if x.priority ≤ y.priority then x :: y :: ys else y :: insertByPriority x ys

/-- `middleware.sort_by_priority` with `reverse=False`, default priority 10:
a stable ascending sort by the `priority` attribute (insertion sort is
extensionally the Python stable `sorted`). -/
def sort_by_priority : List Middleware → List Middleware
  | [] => []
  | x :: xs => insertByPriority x (sort_by_priority xs)

/-- `MiddlewareList.dispatch`: the `handle_dispatch` members of the
priority-sorted list. -/
def middlewareDispatch (l : List Middleware) : List (List Ev → List Ev) :=
  (sort_by_priority l).filterMap Middleware.handle_dispatch

/-- `MiddlewareList.handle_500`: the `handle_500` members of the
priority-sorted list, tagged with their owner's name for tracing. -/
def middlewareHandle500 (l : List Middleware) : List (String × (Exc → Hook500Outcome)) :=
  (sort_by_priority l).filterMap fun m => m.handle_500.map fun f => (m.name, f)

/-- The runtime shapes of `Operation.__init__`'s `methods` argument:
`Method` is a `str` enum, so a bare member takes `force_tuple`'s
str-singleton branch; a tuple passes through; any other iterable is rebuilt
as a tuple. -/
inductive MethodsArg
  | single (m : Method)
  | tup (ms : List Method)
  | iter (ms : List Method)
deriving DecidableEq, Repr

/-- `utils.sequences.force_tuple` restricted to the methods domain:
str/bytes and non-iterable values become one-element tuples, tuples pass
through unchanged, other iterables are converted. -/
def force_tuple : MethodsArg → List Method
  | .single m => [m]
  | .tup ms => ms
  | .iter ms => ms

/-- `operation.Operation` state needed by the claims: resolved path,
normalized methods, and the private middleware list. -/
structure Operation where
  path : UrlPath
  methods : List Method
  middleware : List Middleware

/-- The operation object appended to its own middleware list by
`Operation.__init__`; `Operation` defines none of the probed hook
attributes, so it contributes no capability and has the default priority. -/
def operationSelfEntry : Middleware := {}

/-- `Operation.__init__`: the path is resolved with `UrlPath.from_object`,
`methods` with `force_tuple` (defaulting to `Method.Get`), and the
operation appends itself to the supplied middleware list. -/
def operationInit (path : FromObjectArg)
    (methods : MethodsArg := MethodsArg.single Method.Get)
    (middleware : List Middleware := []) : Except PyErr Operation :=
  (UrlPath.from_object path).map fun p =>
    { path := p, methods := force_tuple methods,
      middleware := middleware ++ [operationSelfEntry] }

/-- `Operation.__call__`: fold the `dispatch`-capable middleware over the
base handler (`handler = partial(m, handler=handler)` in list order) and
invoke the resulting chain; the value is the recorded call order. -/
def operationCall (op : Operation) : List Ev :=
  (middlewareDispatch op.middleware).foldl (fun h w => w h) [Ev.handler]

/-- The container tree: an `Operation` leaf or an `ApiContainer` node with
its resolved `path_prefix` and children (`ApiCollection`/`ApiVersion`/
`ApiInterface` only specialize construction, embedded by the
`*Prefix`/`apiVersionName` builders below). -/
inductive ApiTree
  | oper (o : Operation)
  | container (prefix_path : UrlPath) (children : List ApiTree)

/-- `ApiContainer.__init__` path prefix resolution: an explicit (truthy)
prefix wins, else the root-parse of a truthy name, else `EmptyPath`. -/
def containerPrefix (name : Option String) (given : UrlPath) : Except PyErr UrlPath :=
  if given ≠ [] then .ok given
  else
    match name with
    | some n => if n ≠ "" then UrlPath.parse n else .ok []
    | none => .ok []

/-- `ApiVersion.__init__` default name: `version_template.format(version)`
with the default template `v{}`. -/
def apiVersionName (version : Nat) : String := "v" ++ toString version

/-- `ApiInterface.__init__` prefix resolution: the given prefix or
`UrlPath('', name)`, which must be absolute (else `ValueError`; message
modelled without the quoted slash). -/
def apiInterfacePrefix (name : String) (given : UrlPath) : Except PyErr UrlPath := do
  let pre ← containerPrefix (some name)
    (if given ≠ [] then given else [Atom.lit "", Atom.lit name])
  if UrlPath.is_absolute pre then .ok pre
  else .error (.valueError "Path prefix must be an absolute path (eg start with a /)")

mutual

/-- `ApiContainer.items` / `Operation.items`: resolve every operation's
fully-qualified path by prepending `path_base / path_prefix` at each level;
a falsy (`None` or empty) base is represented by the empty path. -/
def apiTreeItems : ApiTree → UrlPath → Except PyErr (List (UrlPath × Operation))
  | .oper o, pb =>
    if pb = [] then .ok [(o.path, o)]
    else (UrlPath.add pb o.path).map fun u => [(u, o)]
  | .container pre cs, pb =>
    match (if pb = [] then Except.ok pre else UrlPath.add pb pre) with
    | .error e => .error e
    | .ok base => apiTreeItemsList cs base

/-- Concatenation of `items` over a container's children, left to right. -/
def apiTreeItemsList : List ApiTree → UrlPath → Except PyErr (List (UrlPath × Operation))
  | [], _ => .ok []
  | c :: cs, base =>
    match apiTreeItems c base with
    | .error e => .error e
    | .ok xs =>
      match apiTreeItemsList cs base with
      | .error e => .error e
      | .ok ys => .ok (xs ++ ys)

end

/-- Model of `web.Request`: the method and the header values the embedded
code reads (`ACCEPTS`, the parsed `Content-Type`, `ORIGIN`). -/
structure Request where
  method : Method
  acceptsHeader : Option String := none
  content_type : String := ""
  originHeader : Option String := none

/-- `content_type_resolvers.accepts_header`. -/
def accepts_header (req : Request) : Option String := req.acceptsHeader

/-- `content_type_resolvers.content_type_header`. -/
def content_type_header (req : Request) : Option String := some req.content_type

/-- `content_type_resolvers.specific_default`. -/
def specific_default (ct : String) : Request → Option String := fun _ => some ct

/-- Python `str.strip()`: drop leading and trailing whitespace. -/
def pyStrip (s : String) : String :=
  String.mk (((s.toList.dropWhile Char.isWhitespace).reverse.dropWhile
    Char.isWhitespace).reverse)

/-- `content_type_resolvers.parse_content_type`: falsy values map to the
empty string, otherwise the text before the first `;`, stripped. -/
def parse_content_type (v : Option String) : String :=
  match v with
  | none => ""
  | some s =>
    if s = "" then "" else pyStrip (String.mk ((splitOnChar ';' s.toList).headD []))

/-- `content_type_resolvers.resolve` with the default `None` fallback: the
first truthy MIME-parameter-stripped resolver result. -/
def resolve (rs : List (Request → Option String)) (req : Request) : Option String :=
  match rs with
  | [] => none
  | r :: rest =>
    let ct := parse_content_type (r req)
    if ct ≠ "" then some ct else resolve rest req

/-- `ApiInterface.request_type_resolvers`. -/
def request_type_resolvers : List (Request → Option String) :=
  [accepts_header, content_type_header, specific_default "application/json"]

/-- `ApiInterface.response_type_resolvers`. -/
def response_type_resolvers : List (Request → Option String) :=
  [accepts_header, content_type_header, specific_default "application/json"]

/-- `ApiInterface.remap_content_types` as `remap.get(ct, ct)`. -/
def remap_content_types (ct : String) : String :=
  if ct = "text/plain" then "application/json"
  else if ct = "text/javascript" then "application/json"
  else if ct = "text/x-javascript" then "application/json"
  else if ct = "text/x-json" then "application/json"
  else if ct = "application/x-javascript" then "application/json"
  else if ct = "application/octet-stream" then "application/json"
  else ct

/-- `ApiInterface` configuration: registered codec content types (the codec
objects are external; `CODECS` registers exactly `application/json`), the
debug flag and the middleware list. -/
structure ApiInterfaceM where
  registered_codecs : List String := ["application/json"]
  debug_enabled : Bool := false
  middleware : List Middleware := []

/-- `self.registered_codecs[content_type]`: `some` content type on a hit
(the codec is identified by its content type), `none` on `KeyError`. -/
def codecFor (api : ApiInterfaceM) (ct : Option String) : Option String :=
  match ct with
  | some s => if api.registered_codecs.contains s then some s else none
  | none => none

/-- Observable outcome of `ApiInterface.handle_500`: the hooks invoked (in
order, by name), the returned `(resource, status, headers)` triple and the
exception logged by the generic fallback (if reached). -/
structure Handle500Output where
  invoked : List String
  result : H500Result
  logged : Option Exc
deriving DecidableEq

/-- The generic fallback of `ApiInterface.handle_500`:
`(Error.from_status(500), 500, None)`. -/
def fallback500 : H500Result :=
  (Body.res (Resource.err (errorFromStatus internalServerError)), some internalServerError.code, none)

/-- The `for` loop of `ApiInterface.handle_500` under its enclosing `try`:
each hook is called with the *original* exception; a truthy result returns
immediately; an exception raised by a hook aborts the loop (the `except`
clause is outside the loop).  The first component records the hooks
actually invoked. -/
def runHooks : List (String × (Exc → Hook500Outcome)) → Exc →
    List String × Except Exc (Option H500Result)
  | [], _ => ([], .ok none)
  | (n, f) :: rest, e =>
    match f e with
    | .raises e2 => ([n], .error e2)
    | .returns (some r) => ([n], .ok (some r))
    | .returns none =>
      let pr := runHooks rest e
      (n :: pr.1, pr.2)

/-- `ApiInterface.handle_500`: walk the `handle_500` middleware view; if a
hook raises, its exception replaces the one being handled; when no hook
produced a truthy result the (possibly replaced) exception is logged and
the standardized 500 error triple is returned. -/
def apiHandle500 (api : ApiInterfaceM) (e : Exc) : Handle500Output :=
  match runHooks (middlewareHandle500 api.middleware) e with
  | (ns, .ok (some r)) => { invoked := ns, result := r, logged := none }
  | (ns, .ok none) => { invoked := ns, result := fallback500, logged := some e }
  | (ns, .error e2) => { invoked := ns, result := fallback500, logged := some e2 }

/-- The possible outcomes of awaiting the middleware-wrapped operation in
`_dispatch_operation`: a returned value (possibly `None` or an already
finished response), an `ImmediateHttpResponse` (status defaults to `200`),
a `NotImplementedError`, or any other exception. -/
inductive HandlerOutcome
  | value (b : Body)
  | immediate (resource : Body) (status : Nat) (headers : Option Headers)
  | notImpl
  | raises (e : Exc)

/-- `ApiInterface._dispatch_operation`: maps the handler outcome to a
`(resource, status, headers)` triple; unexpected exceptions go to the
500-handler path unless debug mode re-raises them. -/
def dispatchOperation (api : ApiInterfaceM) (outcome : HandlerOutcome) :
    Except Exc H500Result :=
  match outcome with
  | .value b => .ok (b, none, none)
  | .immediate b s h => .ok (b, some s, h)
  | .notImpl => .ok (Body.res (Resource.err (errorFromStatus notImplemented501)),
                     some notImplemented501.code, none)
  | .raises e => if api.debug_enabled then .error e else .ok (apiHandle500 api e).result

/-- `ApiInterface._dispatch`: content negotiation for the request and
response types (miss: `422`), the allowed-method check (miss: `405` with
the comma-joined `Allow` header), then operation dispatch and response
encoding.  The middleware-wrapped handler invocation is abstracted by its
`HandlerOutcome`. -/
def apiDispatch (api : ApiInterfaceM) (req : Request) (op : Operation)
    (outcome : HandlerOutcome) : Except Exc Resp :=
  let request_type := (resolve request_type_resolvers req).map remap_content_types
  match codecFor api request_type with
  | none => .ok (responseFromStatus unprocessableEntity (some "Unknown request content-type"))
  | some _ =>
    let response_type := (resolve response_type_resolvers req).map remap_content_types
    match codecFor api response_type with
    | none => .ok (responseFromStatus unprocessableEntity (some "Unknown response content-type"))
    | some respCt =>
      if op.methods.contains req.method = false then
        .ok (responseFromStatus methodNotAllowed none none
          (some [("Allow", String.intercalate "," (op.methods.map Method.value))]))
      else
        match dispatchOperation api outcome with
        | .error e => .error e
        | .ok (b, status, headers) =>
          match b with
          | .stream r => .ok r
          | .res r => .ok (responseCreate respCt (some r) status headers)
          | .empty => .ok (responseCreate respCt none status headers)


/-- Split a character-class body at its first `]` (`fnmatch.translate`'s
closing-bracket search), returning the class content and the remainder. -/
def findRBracket : List Char → Option (List Char × List Char)
  | [] => none
  | c :: t =>
    if c = ']' then some ([], t)
    else (findRBracket t).map fun pr => (c :: pr.1, pr.2)

/-- Scan a glob character class after `[` per `fnmatch.translate`: an
optional leading `!` negates, a `]` right after that is a literal class
member, and the class ends at the next `]` (no such `]` means the `[` is
treated as a literal character). -/
def splitClass : List Char → Option (Bool × List Char × List Char)
  | [] => none
  | c :: t =>
    if c = '!' then
      match t with
      | [] => none
      | d :: u =>
        if d = ']' then (findRBracket u).map fun pr => (true, ']' :: pr.1, pr.2)
        else (findRBracket t).map fun pr => (true, pr.1, pr.2)
    else if c = ']' then (findRBracket t).map fun pr => (false, ']' :: pr.1, pr.2)
    else (findRBracket (c :: t)).map fun pr => (false, pr.1, pr.2)

/-- Membership of a character in a scanned glob class: `a-b` spans are
ranges over code points, other characters are literal members. -/
def classMember (cls : List Char) (x : Char) : Bool :=
  match cls with
  | [] => false
  | a :: '-' :: b :: rest =>
    (decide (a.val ≤ x.val) && decide (x.val ≤ b.val)) || classMember rest x
  | a :: rest => (a = x) || classMember rest x

/-- One compiled element of a glob pattern, mirroring the regex pieces
produced by `fnmatch.translate`. -/
inductive GlobTok
  | star
  | qmark
  | cls (neg : Bool) (items : List Char)
  | ch (c : Char)

/-- Compilation of a glob pattern into tokens, exactly the scanning loop of
`fnmatch.translate`: `*`, `?`, character classes (an unterminated `[` is a
literal), and literal characters.  The fuel argument makes the recursion
structural (each step consumes at least one pattern character, so any fuel
above the pattern length is sufficient and never reaches zero). -/
def globTokensFuel : Nat → List Char → List GlobTok
  | 0, _ => []
  | _, [] => []
  | fuel + 1, c :: ps =>
    if c = '*' then .star :: globTokensFuel fuel ps
    else if c = '[' then
      match splitClass ps with
      | some (neg, cls, rest) => .cls neg cls :: globTokensFuel fuel rest
      | none => .ch c :: globTokensFuel fuel ps
    else if c = '?' then .qmark :: globTokensFuel fuel ps
    else .ch c :: globTokensFuel fuel ps

/-- Glob pattern compilation with adequate fuel. -/
def globTokens (l : List Char) : List GlobTok := globTokensFuel (l.length + 1) l

/-- Matching of a compiled glob pattern against a string, the semantics of
the regex emitted by `fnmatch.translate`: `star` matches any sequence,
`qmark` any single character, a class one member character, a literal
itself; the whole string must be consumed.  The fuel argument makes the
recursion structural (each step decreases `2*|pattern| + |string|`, so any
fuel above that measure is sufficient and never reaches zero). -/
def tokMatchFuel : Nat → List GlobTok → List Char → Bool
  | 0, _, _ => false
  | fuel + 1, p, s =>
    match p, s with
    | [], rest => rest.isEmpty
    | .star :: ps, [] => tokMatchFuel fuel ps []
    | .star :: ps, c :: cs =>
      tokMatchFuel fuel ps (c :: cs) || tokMatchFuel fuel (.star :: ps) cs
    | .qmark :: _, [] => false
    | .qmark :: ps, _ :: cs => tokMatchFuel fuel ps cs
    | .cls _ _ :: _, [] => false
    | .cls neg items :: ps, x :: xs => (classMember items x != neg) && tokMatchFuel fuel ps xs
    | .ch _ :: _, [] => false
    | .ch c :: ps, x :: xs => (x = c) && tokMatchFuel fuel ps xs

/-- `fnmatch.fnmatch(name, pattern)` on a POSIX system (`normcase` is the
identity): compile the pattern and match the whole name. -/
def fnmatch (nm : String) (pat : String) : Bool :=
  tokMatchFuel ((globTokens pat.toList).length * 2 + nm.toList.length + 1)
    (globTokens pat.toList) nm.toList

/-- The `origins` configuration of `cors.CORS`: the `AnyOrigin` marker
class or a whitelist (a Python `set`, used only via existential matching,
modelled as a list). -/
inductive Origins
  | anyOrigin
  | allowList (os : List String)

/-- `cors.CORS` state relevant to origin computation. -/
structure CORSM where
  origins : Origins

/-- `CORS.get_origin`: the request's `ORIGIN` header. -/
def corsGetOrigin (req : Request) : Option String := req.originHeader

/-- `CORS.match_origin`: a truthy origin matching any whitelist pattern via
`fnmatch`. -/
def corsMatchOrigin (os : List String) (origin : Option String) : Bool :=
  match origin with
  | none => false
  | some o => if o = "" then false else os.any fun pat => fnmatch o pat

/-- `CORS.allow_origin`: `*` under `AnyOrigin`, else the request origin if
it matches the whitelist and the empty string otherwise. -/
def corsAllowOrigin (c : CORSM) (req : Request) : String :=
  match c.origins with
  | .anyOrigin => "*"
  | .allowList os =>
    match corsGetOrigin req with
    | some o => if corsMatchOrigin os (some o) then o else ""
    | none => ""

/-- `headers[k] = v` on an aiohttp header multidict: replace any existing
entry for the key. -/
def setHeader (hs : Headers) (k v : String) : Headers :=
  (hs.filter fun kv => kv.1 ≠ k) ++ [(k, v)]

/-- `CORS.handle_request` applied to the response produced by the wrapped
handler: every non-`OPTIONS` response receives the
`Access-Control-Allow-Origin` header computed by `allow_origin`. -/
def corsHandleRequest (c : CORSM) (req : Request) (response : Resp) : Resp :=
  if req.method ≠ Method.Options then
    { response with
      headers := setHeader response.headers "Access-Control-Allow-Origin" (corsAllowOrigin c req) }
  else response

/-- A dispatch middleware recording its priority-`p` hook `n` around the
handler it wraps (the observable behavior of a before/after tracing hook). -/
def recordingMW (n : String) (p : Nat) : Middleware :=
  { name := n, priority := p,
    handle_dispatch := some fun inner => Ev.before n :: inner ++ [Ev.after n] }

/-- A 500 hook (priority 1) that itself raises. -/
def h500RaisingHook : Middleware :=
  { name := "h1", priority := 1, handle_500 := some fun _ => .raises { msg := "hook failure" } }

/-- A 500 hook (priority 5) that returns a truthy result. -/
def h500ReturningHook : Middleware :=
  { name := "h2", priority := 5,
    handle_500 := some fun _ =>
      .returns (some (Body.res (Resource.value "handled"), some 200, none)) }

/-- The operation `Operation(path="{id}", methods=[GET])` of the tree
resolution test. -/
def c6Operation : Except PyErr Operation :=
  operationInit (.str "\x7bid\x7d") (.iter [Method.Get]) []

/-- The tree `ApiInterface(name="api") > ApiVersion(version=1) >
ApiCollection(name="widgets") > Operation(path="{id}", methods=[GET])`,
with each node's path prefix resolved by its constructor. -/
def c6Tree : Except PyErr ApiTree := do
  let op ← c6Operation
  let widgetsPre ← containerPrefix (some "widgets") EmptyPath
  let versionPre ← containerPrefix (some (apiVersionName 1)) EmptyPath
  let apiPre ← apiInterfacePrefix "api" EmptyPath
  pure (ApiTree.container apiPre
    [ApiTree.container versionPre
      [ApiTree.container widgetsPre [ApiTree.oper op]]])

/-- Appending two non-absolute paths yields a non-absolute path. -/
theorem is_absolute_append (b c : UrlPath) (hb : UrlPath.is_absolute b = false)
    (hc : UrlPath.is_absolute c = false) : UrlPath.is_absolute (b ++ c) = false := by
  cases b with
  | nil => simp [hc]
  | cons a t =>
    cases a with
    | lit s =>
      simp [UrlPath.is_absolute] at hb ⊢
      exact hb
    | param q => simp [UrlPath.is_absolute]

/-- An absolute path is non-empty. -/
theorem is_absolute_ne_nil (r : UrlPath) (hr : UrlPath.is_absolute r = true) :
    r.isEmpty = false := by
  cases r with
  | nil => simp [UrlPath.is_absolute] at hr
  | cons x t => simp

/-- C5: `UrlPath` concatenation is associative for non-absolute right
operands, and concatenating an absolute right operand fails with
`ValueError`. -/
theorem urlpath_add_assoc_and_absolute_guard (a b c d : UrlPath)
    (hb : UrlPath.is_absolute b = false) (hc : UrlPath.is_absolute c = false)
    (hd : UrlPath.is_absolute d = true) :
    ((UrlPath.add a b).bind fun ab => UrlPath.add ab c)
      = ((UrlPath.add b c).bind fun bc => UrlPath.add a bc)
    ∧ UrlPath.add a d = .error (.valueError "Right argument cannot be absolute") := by
  constructor
  · simp [UrlPath.add, Except.bind, hb, hc, is_absolute_append b c hb hc, List.append_assoc]
  · simp [UrlPath.add, hd, is_absolute_ne_nil d hd]

/-- Witness for C5 at `a = (a), b = (b), c = (c), d = ('',)`. -/
theorem urlpath_add_assoc_and_absolute_guard_witness :
    ((UrlPath.add [Atom.lit "a"] [Atom.lit "b"]).bind fun ab => UrlPath.add ab [Atom.lit "c"])
      = ((UrlPath.add [Atom.lit "b"] [Atom.lit "c"]).bind fun bc => UrlPath.add [Atom.lit "a"] bc)
    ∧ UrlPath.add [Atom.lit "a"] [Atom.lit ""]
        = .error (.valueError "Right argument cannot be absolute") :=
  urlpath_add_assoc_and_absolute_guard [Atom.lit "a"] [Atom.lit "b"] [Atom.lit "c"]
    [Atom.lit ""] (by decide) (by decide) (by decide)

/-- C10: the empty path is a right identity of concatenation, a left
identity on non-absolute paths, and concatenating an absolute path onto the
empty path raises. -/
theorem empty_path_identity (p q r : UrlPath)
    (hq : UrlPath.is_absolute q = false) (hr : UrlPath.is_absolute r = true) :
    UrlPath.add p EmptyPath = .ok p
    ∧ UrlPath.add EmptyPath q = .ok q
    ∧ UrlPath.add EmptyPath r = .error (.valueError "Right argument cannot be absolute") := by
  refine ⟨?_, ?_, ?_⟩
  · simp [UrlPath.add, EmptyPath]
  · simp [UrlPath.add, EmptyPath, hq]
  · simp [UrlPath.add, EmptyPath, hr, is_absolute_ne_nil r hr]

/-- Witness for C10 at `p = (x), q = (y), r = ('',)` (the root path). -/
theorem empty_path_identity_witness :
    UrlPath.add [Atom.lit "x"] EmptyPath = .ok [Atom.lit "x"]
    ∧ UrlPath.add EmptyPath [Atom.lit "y"] = .ok [Atom.lit "y"]
    ∧ UrlPath.add EmptyPath RootPath
        = .error (.valueError "Right argument cannot be absolute") :=
  empty_path_identity [Atom.lit "x"] [Atom.lit "y"] RootPath (by decide) (by decide)

/-- C3 counterexample: a single non-Path-located `Parameter` makes
`from_object` raise `ValueError` (with this exact message), which is not a
`TypeError` as the claim states. -/
theorem from_object_nonpath_parameter_valueerror :
    UrlPath.from_object (.param { name := "id", in_ := In.Query })
      = .error (.valueError "Only path parameters can be used in a UrlPath object.")
    ∧ PyErr.valueError "Only path parameters can be used in a UrlPath object."
        ≠ PyErr.typeError "Only path parameters can be used in a UrlPath object." :=
  ⟨rfl, by decide⟩

/-- C3 (amended): `from_object` accepts a `UrlPath`, a string (delegated to
`parse`), a single path `Parameter`, and sequences of strings/parameters;
it fails with `TypeError` on any other element type (in a sequence or as
the whole argument) but with `ValueError` on a single non-Path `Parameter`. -/
theorem from_object_cases (p : UrlPath) (s : String) (pm : Parameter)
    (items bad : List SeqItem) (r : String)
    (hpath : pm.in_ = In.Path) (hok : items.any SeqItem.isOther = false) :
    UrlPath.from_object (.urlPath p) = .ok p
    ∧ UrlPath.from_object (.str s) = UrlPath.parse s
    ∧ UrlPath.from_object (.param pm) = .ok [Atom.param pm]
    ∧ UrlPath.from_object (.seq items) = .ok (items.map SeqItem.toAtom)
    ∧ (∀ pm2 : Parameter, pm2.in_ ≠ In.Path →
        UrlPath.from_object (.param pm2)
          = .error (.valueError "Only path parameters can be used in a UrlPath object."))
    ∧ (bad.any SeqItem.isOther = true →
        UrlPath.from_object (.seq bad)
          = .error (.typeError "Only str and Parameter objects can be used in a UrlPath"))
    ∧ UrlPath.from_object (.other r)
        = .error (.typeError ("Unable to convert object to UrlPath: " ++ r)) := by
  refine ⟨rfl, rfl, ?_, ?_, ?_, ?_, rfl⟩
  · simp [UrlPath.from_object, hpath]
  · simp [UrlPath.from_object, hok]
  · intro pm2 h2
    simp [UrlPath.from_object, h2]
  · intro hbad
    simp [UrlPath.from_object, hbad]

/-- Witness for the amended C3 on concrete inputs of every accepted and
rejected shape. -/
theorem from_object_cases_witness :
    UrlPath.from_object (.urlPath [Atom.lit "a"]) = .ok [Atom.lit "a"]
    ∧ UrlPath.from_object (.str "a") = UrlPath.parse "a"
    ∧ UrlPath.from_object (.param { name := "id", in_ := In.Path })
        = .ok [Atom.param { name := "id", in_ := In.Path }]
    ∧ UrlPath.from_object (.seq [SeqItem.str "w"]) = .ok [Atom.lit "w"]
    ∧ UrlPath.from_object (.seq [SeqItem.other "3"])
        = .error (.typeError "Only str and Parameter objects can be used in a UrlPath")
    ∧ UrlPath.from_object (.other "3")
        = .error (.typeError ("Unable to convert object to UrlPath: " ++ "3")) := by
  have h := from_object_cases [Atom.lit "a"] "a" { name := "id", in_ := In.Path }
    [SeqItem.str "w"] [SeqItem.other "3"] "3" rfl (by decide)
  exact ⟨h.1, h.2.1, h.2.2.1, h.2.2.2.1, h.2.2.2.2.2.1 (by decide), h.2.2.2.2.2.2⟩

/-- C4 counterexample: the empty tuple `()` as the `methods` argument
passes through `force_tuple` unchanged, so the constructed operation has an
empty methods collection — the claimed non-emptiness fails. -/
theorem operation_empty_methods_counterexample :
    (operationInit (.urlPath []) (.tup []) []).map Operation.methods = .ok []
    ∧ ([] : List Method).isEmpty = true :=
  ⟨rfl, rfl⟩

/-- C4 (amended): `Operation.__init__` normalizes `methods` with
`force_tuple`: a single method value is promoted to a one-element tuple,
the default is `(GET,)`, and the result is non-empty whenever the supplied
sequence is non-empty (an empty sequence however yields an empty tuple). -/
theorem operation_methods_normalization (pa : FromObjectArg) (u : UrlPath)
    (hpa : UrlPath.from_object pa = .ok u) (m : Method) (ms : List Method)
    (hms : ms ≠ []) (mw : List Middleware) :
    (operationInit pa (.single m) mw).map Operation.methods = .ok [m]
    ∧ (operationInit pa).map Operation.methods = .ok [Method.Get]
    ∧ (∀ op, operationInit pa (.tup ms) mw = .ok op → op.methods ≠ [])
    ∧ (∀ op, operationInit pa (.iter ms) mw = .ok op → op.methods ≠ []) := by
  refine ⟨?_, ?_, ?_, ?_⟩
  · simp [operationInit, hpa, force_tuple, Except.map]
  · simp [operationInit, hpa, force_tuple, Except.map]
  · intro op hop
    simp [operationInit, hpa, force_tuple, Except.map] at hop
    rw [← hop]
    simpa using hms
  · intro op hop
    simp [operationInit, hpa, force_tuple, Except.map] at hop
    rw [← hop]
    simpa using hms

/-- Witness for the amended C4: a bare `GET`, the default, and the
non-empty list `[GET, POST]`. -/
theorem operation_methods_normalization_witness :
    (operationInit (.urlPath []) (.single Method.Get) []).map Operation.methods
      = .ok [Method.Get]
    ∧ (operationInit (.urlPath [])).map Operation.methods = .ok [Method.Get]
    ∧ ((operationInit (.urlPath []) (.tup [Method.Get, Method.Post]) []).map
        Operation.methods = .ok [Method.Get, Method.Post]) := by
  have h := operation_methods_normalization (.urlPath []) [] rfl Method.Get
    [Method.Get, Method.Post] (by decide) []
  exact ⟨h.1, h.2.1, rfl⟩

/-- C1 counterexample: middleware M1 (priority 1) and M2 (priority 5) both
exposing a dispatch hook produce the call order
`[M2-before, M1-before, handler, M1-after, M2-after]` — the
highest-priority middleware is outermost, not the claimed
`[M1-before, M2-before, handler, M2-after, M1-after]`. -/
theorem operation_call_order_counterexample :
    (operationInit (.urlPath []) (.single Method.Get)
        [recordingMW "M1" 1, recordingMW "M2" 5]).map operationCall
      = .ok [Ev.before "M2", Ev.before "M1", Ev.handler, Ev.after "M1", Ev.after "M2"]
    ∧ ([Ev.before "M2", Ev.before "M1", Ev.handler, Ev.after "M1", Ev.after "M2"]
        ≠ [Ev.before "M1", Ev.before "M2", Ev.handler, Ev.after "M2", Ev.after "M1"]) :=
  ⟨rfl, by decide⟩

/-- C1 (amended): for two dispatch middleware with priorities `p1 < p2`,
`Operation.__call__` composes ascending-priority members each wrapping the
accumulated chain, so the *highest*-priority middleware is outermost: one
call records `[M2-before, M1-before, handler, M1-after, M2-after]`. -/
theorem operation_call_priority_order (n1 n2 : String) (p1 p2 : Nat) (hp : p1 < p2)
    (pa : FromObjectArg) (u : UrlPath) (hpa : UrlPath.from_object pa = .ok u)
    (marg : MethodsArg) :
    (operationInit pa marg [recordingMW n1 p1, recordingMW n2 p2]).map operationCall
      = .ok [Ev.before n2, Ev.before n1, Ev.handler, Ev.after n1, Ev.after n2] := by
  have hple : p1 ≤ p2 := Nat.le_of_lt hp
  by_cases h2 : p2 ≤ 10
  · simp [operationInit, hpa, Except.map, operationCall, middlewareDispatch,
          sort_by_priority, insertByPriority, recordingMW, operationSelfEntry, hple, h2]
  · by_cases h1 : p1 ≤ 10
    · simp [operationInit, hpa, Except.map, operationCall, middlewareDispatch,
            sort_by_priority, insertByPriority, recordingMW, operationSelfEntry, hple, h2, h1]
    · simp [operationInit, hpa, Except.map, operationCall, middlewareDispatch,
            sort_by_priority, insertByPriority, recordingMW, operationSelfEntry, hple, h2, h1]

/-- Witness for the amended C1 at priorities 1 and 5. -/
theorem operation_call_priority_order_witness :
    (operationInit (.urlPath [Atom.lit "w"]) (.single Method.Get)
        [recordingMW "A" 1, recordingMW "B" 5]).map operationCall
      = .ok [Ev.before "B", Ev.before "A", Ev.handler, Ev.after "A", Ev.after "B"] :=
  operation_call_priority_order "A" "B" 1 5 (by decide) (.urlPath [Atom.lit "w"])
    [Atom.lit "w"] rfl (.single Method.Get)

/-- C2 counterexample: with a priority-1 hook that raises and a priority-5
hook that would return a truthy result, the walk stops at the raising hook
(the second hook is never invoked) and the fallback 500 triple is returned
with the replacement exception logged — the walk does not continue as the
claim states, and the second hook's result is not returned. -/
theorem handle_500_walk_aborts_counterexample :
    apiHandle500 { middleware := [h500RaisingHook, h500ReturningHook] } { msg := "original" }
      = { invoked := ["h1"], result := fallback500, logged := some { msg := "hook failure" } }
    ∧ (["h1"] : List String) ≠ ["h1", "h2"]
    ∧ fallback500 ≠ (Body.res (Resource.value "handled"), some 200, none) :=
  ⟨rfl, by decide, by decide⟩

/-- C2 (amended): in the 500-handler path, when a middleware 500-hook
raises, its exception replaces the one being handled and the walk stops
immediately — the remaining hooks are *not* invoked — so the fallback is
reached: the replacement exception is logged and the standardized 500 Error
body (status 500, code 50000) is returned; and when every hook returns a
falsy result, the original exception is logged with the same fallback. -/
theorem handle_500_raise_replaces_and_aborts (api : ApiInterfaceM) (e e2 : Exc)
    (pre post : List (String × (Exc → Hook500Outcome))) (n : String)
    (f : Exc → Hook500Outcome) :
    (middlewareHandle500 api.middleware = pre ++ (n, f) :: post →
      (∀ x ∈ pre, x.2 e = .returns none) → f e = .raises e2 →
      apiHandle500 api e
        = { invoked := pre.map Prod.fst ++ [n], result := fallback500, logged := some e2 })
    ∧ ((∀ x ∈ middlewareHandle500 api.middleware, x.2 e = .returns none) →
      apiHandle500 api e
        = { invoked := (middlewareHandle500 api.middleware).map Prod.fst,
            result := fallback500, logged := some e }) := by
  constructor
  · intro hhooks hpre hf
    have hrun : ∀ (l : List (String × (Exc → Hook500Outcome))),
        (∀ x ∈ l, x.2 e = .returns none) →
        runHooks (l ++ (n, f) :: post) e = (l.map Prod.fst ++ [n], .error e2) := by
      intro l
      induction l with
      | nil => intro _; simp [runHooks, hf]
      | cons x xs ih =>
        intro hl
        obtain ⟨xn, xf⟩ := x
        have hx : xf e = .returns none := hl (xn, xf) (by simp)
        simp [runHooks, hx, ih fun y hy => hl y (by simp [hy])]
    unfold apiHandle500
    rw [hhooks, hrun pre hpre]
  · intro hall
    have hrun : ∀ (l : List (String × (Exc → Hook500Outcome))),
        (∀ x ∈ l, x.2 e = .returns none) →
        runHooks l e = (l.map Prod.fst, .ok none) := by
      intro l
      induction l with
      | nil => intro _; simp [runHooks]
      | cons x xs ih =>
        intro hl
        obtain ⟨xn, xf⟩ := x
        have hx : xf e = .returns none := hl (xn, xf) (by simp)
        simp [runHooks, hx, ih fun y hy => hl y (by simp [hy])]
    unfold apiHandle500
    rw [hrun (middlewareHandle500 api.middleware) hall]

/-- Witness for the amended C2: the raising/returning pair of hooks for the
first conjunct, and a single falsy hook for the second. -/
theorem handle_500_raise_replaces_and_aborts_witness :
    apiHandle500 { middleware := [h500RaisingHook, h500ReturningHook] } { msg := "w" }
      = { invoked := ["h1"], result := fallback500, logged := some { msg := "hook failure" } }
    ∧ apiHandle500
        { middleware := [{ name := "quiet", handle_500 := some fun _ => .returns none }] }
        { msg := "w" }
      = { invoked := ["quiet"], result := fallback500, logged := some { msg := "w" } } := by
  constructor
  · exact (handle_500_raise_replaces_and_aborts
      { middleware := [h500RaisingHook, h500ReturningHook] } { msg := "w" }
      { msg := "hook failure" } [] [("h2", fun _ =>
        Hook500Outcome.returns (some (Body.res (Resource.value "handled"), some 200, none)))]
      "h1" (fun _ => Hook500Outcome.raises { msg := "hook failure" })).1 rfl
      (by intro x hx; simp at hx) rfl
  · refine (handle_500_raise_replaces_and_aborts
      { middleware := [{ name := "quiet", handle_500 := some fun _ => .returns none }] }
      { msg := "w" } { msg := "w" } [] [] "quiet" (fun _ => Hook500Outcome.returns none)).2 ?_
    intro x hx
    have hl : middlewareHandle500
        [{ name := "quiet", handle_500 := some fun _ => Hook500Outcome.returns none }]
        = [("quiet", fun _ => Hook500Outcome.returns none)] := rfl
    rw [hl] at hx
    simp at hx
    rw [hx]

/-- C6 counterexample: the single pair yielded by `items()` on the
`api > v1 > widgets > {id}` tree formats to `/api/v1/widgets/{id:String}`
(the default parameter formatter includes the data type), not the claimed
`/api/v1/widgets/{id}`. -/
theorem c6_items_formatted_counterexample :
    (c6Tree.bind fun t => apiTreeItems t EmptyPath).map
        (fun l => l.map fun pr => UrlPath.format pr.1)
      = .ok ["/api/v1/widgets/\x7bid:String\x7d"]
    ∧ "/api/v1/widgets/\x7bid:String\x7d" ≠ "/api/v1/widgets/\x7bid\x7d" :=
  ⟨by decide, by decide⟩

/-- C6 (amended): for the tree `ApiInterface(name="api") >
ApiVersion(version=1) > ApiCollection(name="widgets") >
Operation(path="{id}", methods=[GET])`, `items()` yields exactly one
`(path, operation)` pair; its path formats to `/api/v1/widgets/{id:String}`
and the operation's method collection is exactly `[GET]`. -/
theorem c6_tree_items_resolution :
    (c6Tree.bind fun t => apiTreeItems t EmptyPath).map
        (fun l => l.map fun pr => (UrlPath.format pr.1, pr.2.methods))
      = .ok [("/api/v1/widgets/\x7bid:String\x7d", [Method.Get])] := by
  decide

/-- C7: when both negotiated content types have registered codecs and the
request method is not in the operation's method set, `_dispatch` terminates
with `405 Method Not Allowed` and an `Allow` header that comma-joins the
method values. -/
theorem dispatch_method_not_allowed (api : ApiInterfaceM) (req : Request) (op : Operation)
    (outcome : HandlerOutcome)
    (hreq : (codecFor api ((resolve request_type_resolvers req).map
        remap_content_types)).isSome = true)
    (hresp : (codecFor api ((resolve response_type_resolvers req).map
        remap_content_types)).isSome = true)
    (hm : op.methods.contains req.method = false) :
    apiDispatch api req op outcome
      = .ok { status := 405, reason := some "Method Not Allowed",
              text := some "Specified method is invalid for this resource",
              headers := [("Allow", String.intercalate "," (op.methods.map Method.value))] } := by
  obtain ⟨x, hx⟩ := Option.isSome_iff_exists.mp hreq
  obtain ⟨y, hy⟩ := Option.isSome_iff_exists.mp hresp
  have hm2 : req.method ∉ op.methods := by simpa using hm
  simp [apiDispatch, hx, hy, hm2, responseFromStatus, methodNotAllowed]

/-- Witness for C7: a GET-only operation invoked with DELETE under
`Content-Type: application/json` yields `405` with `Allow: GET`. -/
theorem dispatch_method_not_allowed_witness :
    apiDispatch {} { method := Method.Delete, content_type := "application/json" }
        { path := [], methods := [Method.Get], middleware := [] } (.value .empty)
      = .ok { status := 405, reason := some "Method Not Allowed",
              text := some "Specified method is invalid for this resource",
              headers := [("Allow", "GET")] } := by
  have h := dispatch_method_not_allowed {}
    { method := Method.Delete, content_type := "application/json" }
    { path := [], methods := [Method.Get], middleware := [] } (.value .empty)
    (by decide) (by decide) (by decide)
  simpa using h

/-- C8 counterexample: for `Content-Type: application/xml` with no
`Accepts` header against the default interface registering only
`application/json`, `_dispatch` returns a `422` response whose *reason
phrase* is "Unknown request content-type" but whose body is empty — no
resource body is set and the body text is the empty `422` status
description — so the response body indicates nothing, contrary to the
claim. -/
theorem dispatch_422_reason_not_body_counterexample :
    apiDispatch {} { method := Method.Get, content_type := "application/xml" }
        { path := [], methods := [Method.Get], middleware := [] } (.value .empty)
      = .ok { status := 422, reason := some "Unknown request content-type",
              text := some "", headers := [] }
    ∧ ({ status := 422, reason := some "Unknown request content-type",
         text := some "", headers := [] } : Resp).body = none
    ∧ ({ status := 422, reason := some "Unknown request content-type",
         text := some "", headers := [] } : Resp).text = some ""
    ∧ ("" : String) ≠ "Unknown request content-type" :=
  ⟨by decide, rfl, rfl, by decide⟩

/-- C8 (amended): when the request carries no `Accepts` header and its
`Content-Type` header strips to a non-empty MIME type whose remapped value
has no registered codec, `_dispatch` terminates with status `422` carrying
"Unknown request content-type" in the HTTP reason phrase, with an empty
body (no resource, body text equal to the empty `422` status description)
and no headers. -/
theorem dispatch_unknown_request_content_type (api : ApiInterfaceM) (req : Request)
    (op : Operation) (outcome : HandlerOutcome)
    (hacc : req.acceptsHeader = none)
    (hct : parse_content_type (some req.content_type) ≠ "")
    (hreg : api.registered_codecs.contains
        (remap_content_types (parse_content_type (some req.content_type))) = false) :
    apiDispatch api req op outcome
      = .ok { status := 422, reason := some "Unknown request content-type",
              text := some "", headers := [] } := by
  have hres : resolve request_type_resolvers req
      = some (parse_content_type (some req.content_type)) := by
    simp only [request_type_resolvers, resolve, accepts_header, content_type_header, hacc]
    rw [if_neg (by simp [parse_content_type]), if_pos hct]
  have hreg2 : remap_content_types (parse_content_type (some req.content_type))
      ∉ api.registered_codecs := by simpa using hreg
  simp [apiDispatch, hres, codecFor, hreg2, responseFromStatus, unprocessableEntity]

/-- Witness for C8: `Content-Type: application/xml` with no `Accepts`
header against the default interface registering only `application/json`. -/
theorem dispatch_unknown_request_content_type_witness :
    apiDispatch {} { method := Method.Get, content_type := "application/xml" }
        { path := [], methods := [Method.Get], middleware := [] } (.value .empty)
      = .ok { status := 422, reason := some "Unknown request content-type",
              text := some "", headers := [] } :=
  dispatch_unknown_request_content_type {}
    { method := Method.Get, content_type := "application/xml" }
    { path := [], methods := [Method.Get], middleware := [] } (.value .empty)
    rfl (by decide) (by decide)

/-- C9: CORS allow-origin computation: under a static allow-list a request
origin matching some allow-list pattern yields exactly that origin, any
non-matching or missing origin yields the empty string (the computation is
total, hence never raises), under the any-origin policy the value is always
`*`, and every non-`OPTIONS` response receives the computed value in its
`Access-Control-Allow-Origin` header. -/
theorem cors_allow_origin_spec (os : List String) (req req2 : Request) (o : String)
    (resp : Resp)
    (horig : req.originHeader = some o) (hne : o ≠ "")
    (hmatch : (os.any fun pat => fnmatch o pat) = true)
    (hnomatch : corsMatchOrigin os (corsGetOrigin req2) = false)
    (hopt : req.method ≠ Method.Options) :
    corsAllowOrigin { origins := Origins.allowList os } req = o
    ∧ corsAllowOrigin { origins := Origins.allowList os } req2 = ""
    ∧ corsAllowOrigin { origins := Origins.anyOrigin } req = "*"
    ∧ (corsHandleRequest { origins := Origins.allowList os } req resp).headers
        = setHeader resp.headers "Access-Control-Allow-Origin" o := by
  have h1 : corsAllowOrigin { origins := Origins.allowList os } req = o := by
    simp [corsAllowOrigin, corsGetOrigin, corsMatchOrigin, horig, hne, hmatch]
  refine ⟨h1, ?_, rfl, ?_⟩
  · cases horig2 : req2.originHeader with
    | none => simp [corsAllowOrigin, corsGetOrigin, horig2]
    | some o2 =>
      rw [corsGetOrigin, horig2] at hnomatch
      simp [corsAllowOrigin, corsGetOrigin, horig2, hnomatch]
  · simp [corsHandleRequest, hopt, h1]

/-- Witness for C9: allow-list `["http://example.com"]`, matching origin
`http://example.com`, non-matching origin `http://evil.com`. -/
theorem cors_allow_origin_spec_witness :
    corsAllowOrigin { origins := Origins.allowList ["http://example.com"] }
        { method := Method.Get, originHeader := some "http://example.com" }
      = "http://example.com"
    ∧ corsAllowOrigin { origins := Origins.allowList ["http://example.com"] }
        { method := Method.Get, originHeader := some "http://evil.com" }
      = ""
    ∧ corsAllowOrigin { origins := Origins.anyOrigin }
        { method := Method.Get, originHeader := some "http://example.com" }
      = "*"
    ∧ (corsHandleRequest { origins := Origins.allowList ["http://example.com"] }
        { method := Method.Get, originHeader := some "http://example.com" }
        { status := 200 }).headers
      = [("Access-Control-Allow-Origin", "http://example.com")] := by
  have h := cors_allow_origin_spec ["http://example.com"]
    { method := Method.Get, originHeader := some "http://example.com" }
    { method := Method.Get, originHeader := some "http://evil.com" }
    "http://example.com" { status := 200 }
    rfl (by decide) (by decide) (by decide) (by decide)
  exact ⟨h.1, h.2.1, h.2.2.1, h.2.2.2⟩

end Aiodinweb
